import Mathlib

/-!
Verification model of `s1s5/aws-lambda-proxy` (src/main.rs).

The program is an axum HTTP adapter: it converts an inbound HTTP request into
a Lambda-function-URL style invocation-event JSON document, POSTs it to a
configured backend, and rebuilds an HTTP response from the backend's JSON
reply (`LambdaResponse` in the source).

Bytes are modelled as `Nat` (with `< 256` side conditions where they matter),
strings as Lean `String`, and the JSON documents exchanged with the backend
as an explicit `Json` AST.  Every fallible step of the source is modelled
explicitly; the `.unwrap()` calls of the source are modelled by the
`Outcome.crash` result (a panic aborts the handler task without producing an
HTTP response).
-/

/-! ## Base64 (model of the `base64` crate, `general_purpose::STANDARD`:
standard alphabet, canonical `=` padding required, trailing bits must be
zero). -/

/-- The standard base64 alphabet, in index order. -/
def b64Chars : List Char :=
  ['A', 'B', 'C', 'D', 'E', 'F', 'G', 'H', 'I', 'J', 'K', 'L', 'M',
   'N', 'O', 'P', 'Q', 'R', 'S', 'T', 'U', 'V', 'W', 'X', 'Y', 'Z',
   'a', 'b', 'c', 'd', 'e', 'f', 'g', 'h', 'i', 'j', 'k', 'l', 'm',
   'n', 'o', 'p', 'q', 'r', 's', 't', 'u', 'v', 'w', 'x', 'y', 'z',
   '0', '1', '2', '3', '4', '5', '6', '7', '8', '9', '+', '/']

/-- Character for a sextet value (meaningful for `s < 64`). -/
def sextetChar (s : Nat) : Char := b64Chars.getD s 'A'

/-- Sextet value of an alphabet character; `none` for non-alphabet
characters (including the padding character). -/
def charSextet (c : Char) : Option Nat := b64Chars.findIdx? (fun x => x == c)

/-- Base64-encode a byte sequence, three bytes to four characters, with
canonical padding, exactly as `STANDARD.encode` does. -/
def b64EncodeChunks : List Nat → List Char
  | [] => []
  | [b0] =>
      [sextetChar (b0 / 4), sextetChar (b0 % 4 * 16), '=', '=']
  | [b0, b1] =>
      [sextetChar (b0 / 4), sextetChar (b0 % 4 * 16 + b1 / 16),
       sextetChar (b1 % 16 * 4), '=']
  | b0 :: b1 :: b2 :: rest =>
      sextetChar (b0 / 4) :: sextetChar (b0 % 4 * 16 + b1 / 16) ::
      sextetChar (b1 % 16 * 4 + b2 / 64) :: sextetChar (b2 % 64) ::
      b64EncodeChunks rest

/-- Decode a final base64 block `c0 c1 = =` (one byte).  The trailing bits
of the second sextet must be zero (`STANDARD` is canonical). -/
def b64DecPad2 (c0 c1 : Char) : Option (List Nat) :=
  match charSextet c0, charSextet c1 with
  | some s0, some s1 =>
      if s1 % 16 = 0 then some [s0 * 4 + s1 / 16] else none
  | _, _ => none

/-- Decode a final base64 block `c0 c1 c2 =` (two bytes). -/
def b64DecPad1 (c0 c1 c2 : Char) : Option (List Nat) :=
  match charSextet c0, charSextet c1, charSextet c2 with
  | some s0, some s1, some s2 =>
      if s2 % 4 = 0 then
        some [s0 * 4 + s1 / 16, s1 % 16 * 16 + s2 / 4]
      else none
  | _, _, _ => none

/-- Base64-decode, as `STANDARD.decode` does: the length must be a multiple
of four, padding only in the last block, canonical padding required. -/
def b64Decode : List Char → Option (List Nat)
  | [] => some []
  | c0 :: c1 :: c2 :: c3 :: rest =>
      if c2 = '=' then
        if c3 = '=' ∧ rest = [] then b64DecPad2 c0 c1 else none
      else if c3 = '=' then
        if rest = [] then b64DecPad1 c0 c1 c2 else none
      else
        match charSextet c0, charSextet c1, charSextet c2, charSextet c3,
              b64Decode rest with
        | some s0, some s1, some s2, some s3, some tail =>
            some ((s0 * 4 + s1 / 16) :: (s1 % 16 * 16 + s2 / 4) ::
                  (s2 % 4 * 64 + s3) :: tail)
        | _, _, _, _, _ => none
  | _ => none

/-! ## UTF-8 (models Rust `String::from_utf8`, strict validation, and the
UTF-8 byte serialization of a Rust `String`). -/

/-- A UTF-8 continuation byte. -/
def isCont (b : Nat) : Bool := 0x80 ≤ b && b ≤ 0xBF

/-- Strict UTF-8 decoding of a byte sequence: `none` exactly when Rust's
`String::from_utf8` fails (overlong forms, surrogates and out-of-range
code points are rejected). -/
def utf8Dec : List Nat → Option (List Char)
  | [] => some []
  | b :: rest =>
      if b < 0x80 then (utf8Dec rest).map (Char.ofNat b :: ·)
      else if 0xC2 ≤ b && b ≤ 0xDF then
        match rest with
        | b1 :: r =>
            if isCont b1 then
              (utf8Dec r).map (Char.ofNat ((b - 0xC0) * 64 + (b1 - 0x80)) :: ·)
            else none
        | _ => none
      else if b = 0xE0 then
        match rest with
        | b1 :: b2 :: r =>
            if (0xA0 ≤ b1 && b1 ≤ 0xBF) && isCont b2 then
              (utf8Dec r).map
                (Char.ofNat ((b - 0xE0) * 4096 + (b1 - 0x80) * 64 + (b2 - 0x80)) :: ·)
            else none
        | _ => none
      else if (0xE1 ≤ b && b ≤ 0xEC) || b = 0xEE || b = 0xEF then
        match rest with
        | b1 :: b2 :: r =>
            if isCont b1 && isCont b2 then
              (utf8Dec r).map
                (Char.ofNat ((b - 0xE0) * 4096 + (b1 - 0x80) * 64 + (b2 - 0x80)) :: ·)
            else none
        | _ => none
      else if b = 0xED then
        match rest with
        | b1 :: b2 :: r =>
            if (0x80 ≤ b1 && b1 ≤ 0x9F) && isCont b2 then
              (utf8Dec r).map
                (Char.ofNat ((b - 0xE0) * 4096 + (b1 - 0x80) * 64 + (b2 - 0x80)) :: ·)
            else none
        | _ => none
      else if b = 0xF0 then
        match rest with
        | b1 :: b2 :: b3 :: r =>
            if (0x90 ≤ b1 && b1 ≤ 0xBF) && isCont b2 && isCont b3 then
              (utf8Dec r).map
                (Char.ofNat ((b - 0xF0) * 262144 + (b1 - 0x80) * 4096 + (b2 - 0x80) * 64 + (b3 - 0x80)) :: ·)
            else none
        | _ => none
      else if 0xF1 ≤ b && b ≤ 0xF3 then
        match rest with
        | b1 :: b2 :: b3 :: r =>
            if isCont b1 && isCont b2 && isCont b3 then
              (utf8Dec r).map
                (Char.ofNat ((b - 0xF0) * 262144 + (b1 - 0x80) * 4096 + (b2 - 0x80) * 64 + (b3 - 0x80)) :: ·)
            else none
        | _ => none
      else if b = 0xF4 then
        match rest with
        | b1 :: b2 :: b3 :: r =>
            if (0x80 ≤ b1 && b1 ≤ 0x8F) && isCont b2 && isCont b3 then
              (utf8Dec r).map
                (Char.ofNat ((b - 0xF0) * 262144 + (b1 - 0x80) * 4096 + (b2 - 0x80) * 64 + (b3 - 0x80)) :: ·)
            else none
        | _ => none
      else none

/-- UTF-8 bytes of one character. -/
def charUtf8 (c : Char) : List Nat :=
  let n := c.toNat
  if n < 0x80 then [n]
  else if n < 0x800 then [0xC0 + n / 64, 0x80 + n % 64]
  else if n < 0x10000 then
    [0xE0 + n / 4096, 0x80 + n / 64 % 64, 0x80 + n % 64]
  else
    [0xF0 + n / 262144, 0x80 + n / 4096 % 64, 0x80 + n / 64 % 64, 0x80 + n % 64]

/-- UTF-8 bytes of a string (what Rust's `String` / `str::as_bytes` holds). -/
def utf8Encode (s : String) : List Nat :=
  s.data.foldr (fun c acc => charUtf8 c ++ acc) []

/-! ## application/x-www-form-urlencoded (model of
`url::form_urlencoded::parse` over the raw query bytes).  Keys and values
are kept as byte sequences; the source additionally runs them through a
lossy UTF-8 conversion, which is applied uniformly to every pair and does
not affect which pairs exist or which occurrence of a key wins. -/

/-- Value of an ASCII hex digit byte. -/
def hexVal (b : Nat) : Option Nat :=
  if 48 ≤ b ∧ b ≤ 57 then some (b - 48)
  else if 97 ≤ b ∧ b ≤ 102 then some (b - 87)
  else if 65 ≤ b ∧ b ≤ 70 then some (b - 55)
  else none

/-- `+` to space, then percent-decoding; a `%` not followed by two hex
digits is kept verbatim (as the `percent-encoding` crate does). -/
def percentPlusDecode : List Nat → List Nat
  | [] => []
  | 43 :: r => 32 :: percentPlusDecode r
  | 37 :: h1 :: h2 :: r2 =>
      (match hexVal h1, hexVal h2 with
       | some a, some c => (a * 16 + c) :: percentPlusDecode r2
       | _, _ => 37 :: percentPlusDecode (h1 :: h2 :: r2))
  | 37 :: r => 37 :: percentPlusDecode r
  | b :: r => b :: percentPlusDecode r

/-- Split a byte sequence at every occurrence of `sep` (like Rust's
`split`: `n` separators give `n + 1` pieces). -/
def splitSep (sep : Nat) : List Nat → List (List Nat)
  | [] => [[]]
  | b :: r =>
      if b = sep then [] :: splitSep sep r
      else
        match splitSep sep r with
        | [] => [[b]]
        | p :: ps => (b :: p) :: ps

/-- Split at the first occurrence of `sep`: the part before it, and the
part after it when present (like Rust's `splitn(2, _)`). -/
def splitFirst (sep : Nat) : List Nat → List Nat × Option (List Nat)
  | [] => ([], none)
  | b :: r =>
      if b = sep then ([], some r)
      else
        let p := splitFirst sep r
        (b :: p.1, p.2)

/-- The pairs produced by `form_urlencoded::parse`: split on `&`, skip
empty pieces, split each piece at the first `=` (missing value is empty),
percent-plus-decode both sides. -/
def formUrlDecode (bs : List Nat) : List (List Nat × List Nat) :=
  (splitSep 38 bs).filterMap fun piece =>
    if piece = [] then none
    else
      let kv := splitFirst 61 piece
      some (percentPlusDecode kv.1, percentPlusDecode (kv.2.getD []))

/-- Insert into an association list, replacing the value when the key is
already present (the behaviour of `HashMap::insert`). -/
def insertReplace {α β : Type} [DecidableEq α] :
    List (α × β) → α → β → List (α × β)
  | [], k, v => [(k, v)]
  | (k0, v0) :: rest, k, v =>
      if k0 = k then (k0, v) :: rest
      else (k0, v0) :: insertReplace rest k v

/-- Collect a pair sequence into a key-unique mapping by repeated
insertion: duplicate keys collapse to the value of the last occurrence
(the behaviour of `collect::<HashMap<_, _>>()`, represented canonically
in first-occurrence order). -/
def collectLastWins {α β : Type} [DecidableEq α]
    (ps : List (α × β)) : List (α × β) :=
  ps.foldl (fun acc p => insertReplace acc p.1 p.2) []

/-! ## HTTP header validity (models of the `http` crate checks applied to
the backend reply's headers). -/

/-- Valid byte of an HTTP header name (`HeaderName::try_from`): RFC 7230
token characters; uppercase letters are accepted and lowercased. -/
def headerNameChar (c : Char) : Bool :=
  let n := c.toNat
  (97 ≤ n && n ≤ 122) || (65 ≤ n && n ≤ 90) || (48 ≤ n && n ≤ 57) ||
  n = 33 || n = 35 || n = 36 || n = 37 || n = 38 || n = 39 || n = 42 ||
  n = 43 || n = 45 || n = 46 || n = 94 || n = 95 || n = 96 || n = 124 ||
  n = 126

/-- `HeaderName::try_from` succeeds: non-empty, all token characters. -/
def headerNameValid (s : String) : Bool :=
  !s.data.isEmpty && s.data.all headerNameChar

/-- `HeaderValue::from_str` accepts each byte `b` with
`b == 9 || (b >= 32 && b != 127)`. -/
def headerValueByteOk (b : Nat) : Bool := b = 9 || (32 ≤ b && b ≠ 127)

/-- `HeaderValue::from_str` succeeds on the string's UTF-8 bytes. -/
def headerValueValid (s : String) : Bool :=
  (utf8Encode s).all headerValueByteOk

/-- ASCII lowercasing, as `HeaderName` canonicalizes names. -/
def lowerAscii (s : String) : String := String.mk (s.data.map Char.toLower)

/-! ## Data model -/

/-- An inbound HTTP request as the handler sees it: method and path
strings, the raw query string when the URI has one, the header list as
(name, raw value bytes) pairs — axum header names are already valid
tokens, values are arbitrary bytes — and the buffered body bytes. -/
structure InboundRequest where
  method : String
  path : String
  query : Option String
  headers : List (String × List Nat)
  body : List Nat

/-- The `requestContext.http` object of the invocation event. -/
structure RequestContextHttp where
  method : String
  path : String
  protocol : String
  sourceIp : String
  userAgent : String
deriving DecidableEq

/-- The `requestContext` object of the invocation event. -/
structure RequestContext where
  accountId : String
  apiId : String
  domainName : String
  domainPrefix : String
  http : RequestContextHttp
  requestId : String
  routeKey : String
  stage : String
  time : String
  timeEpoch : Int
deriving DecidableEq

/-- The invocation-event JSON document built by `handle_all` (the
`serde_json::json!` literal in the source), with its mappings in the
canonical key-unique representation. -/
structure InvocationEvent where
  version : String
  routeKey : String
  rawPath : String
  rawQueryString : String
  cookies : List String
  headers : List (String × String)
  queryStringParameters : List (List Nat × List Nat)
  requestContext : RequestContext
  body : String
  isBase64Encoded : Bool
deriving DecidableEq

/-- The backend reply document (`struct LambdaResponse` in the source,
deserialized with serde's camelCase renaming). -/
structure LambdaResponse where
  status_code : Nat
  headers : List (String × String)
  body : String
  is_base64_encoded : Option Bool
deriving DecidableEq

/-- A JSON value, as exchanged with the backend.  Numbers are modelled as
integers (the reply schema only uses integral numbers). -/
inductive Json where
  | null : Json
  | bool (b : Bool) : Json
  | num (n : Int) : Json
  | str (s : String) : Json
  | arr (elems : List Json) : Json
  | obj (fields : List (String × Json)) : Json

/-- The backend's HTTP response to the invocation POST: its status code
and its body, already at the JSON level (a body that is not syntactically
JSON is subsumed by a document that fails deserialization). -/
structure BackendResp where
  status : Nat
  body : Json

/-- Result of one handler invocation.  `response` is an HTTP response
handed to the original caller; `crash` models a panic from one of the
source's `.unwrap()` calls: the handler task aborts and no translated
response is produced. -/
inductive Outcome where
  | response (status : Nat) (headers : List (String × String))
      (body : List Nat) : Outcome
  | crash (msg : String) : Outcome
deriving DecidableEq

/-- Headers attached by axum to `(StatusCode, String).into_response()`. -/
def plainTextHeaders : List (String × String) :=
  [("content-type", "text/plain; charset=utf-8")]

/-! ## EventBuilder (lines 36-112 of src/main.rs) -/

/-- `String::from_utf8` applied to every header value, collected as
`Result` (any failure rejects the whole header set). -/
def decodeHeaders : List (String × List Nat) → Option (List (String × String))
  | [] => some []
  | (k, v) :: rest =>
      match utf8Dec v with
      | none => none
      | some cs => (decodeHeaders rest).map (fun m => (k, String.mk cs) :: m)

/-- The invocation event built from the request, the decoded header pairs,
and the wall-clock values (`formatted_time`, `timestamp_millis`), exactly
mirroring the `serde_json::json!` literal of the source. -/
def buildEvent (req : InboundRequest) (hdrs : List (String × String))
    (timeStr : String) (epochMs : Int) : InvocationEvent :=
  { version := "2.0"
    routeKey := "$default"
    rawPath := req.path
    rawQueryString := req.query.getD ""
    cookies := ["cookie1=value1", "cookie2=value2"]
    headers := collectLastWins hdrs
    queryStringParameters :=
      collectLastWins (formUrlDecode (utf8Encode (req.query.getD "")))
    requestContext :=
      { accountId := "anonymous"
        apiId := "xxxxxxxxxx"
        domainName := "xxxxxxxxxx.lambda-url.ap-northeast-1.on.aws"
        domainPrefix := "xxxxxxxxxx"
        http :=
          { method := req.method
            path := req.path
            protocol := "HTTP/1.1"
            sourceIp := "1.2.3.4"
            userAgent := "curl/7.81.0" }
        requestId := "xxxxxxxx-xxxx-xxxx-xxxx-xxxxxxxxxxxx"
        routeKey := "$default"
        stage := "$default"
        time := timeStr
        timeEpoch := epochMs }
    body := String.mk (b64EncodeChunks req.body)
    isBase64Encoded := true }

/-! ## BackendReply parsing (serde derive for `LambdaResponse`, model of
`serde_json::from_slice`).  The model works on the JSON document; a
backend body that is not syntactically JSON corresponds to no well-formed
document and likewise fails. -/

/-- First value bound to a key in a JSON object. -/
def jGet (fields : List (String × Json)) (k : String) : Option Json :=
  (fields.find? (fun p => p.1 == k)).map (fun p => p.2)

/-- A JSON number deserialized as `u16` (serde: integer in `[0, 65535]`). -/
def asU16 : Json → Option Nat
  | .num n => if 0 ≤ n ∧ n ≤ 65535 then some n.toNat else none
  | _ => none

/-- A JSON string. -/
def asStr : Json → Option String
  | .str s => some s
  | _ => none

/-- All entries of a JSON object as string-to-string pairs; any non-string
value fails. -/
def strEntries : List (String × Json) → Option (List (String × String))
  | [] => some []
  | (k, .str v) :: rest => (strEntries rest).map (fun m => (k, v) :: m)
  | _ => none

/-- A JSON object deserialized as `HashMap<String, String>`. -/
def asHeaderMap : Json → Option (List (String × String))
  | .obj fs => (strEntries fs).map collectLastWins
  | _ => none

/-- The optional `isBase64Encoded` field as `Option<bool>`: absent or
`null` gives `None`, a boolean gives `Some`, anything else fails. -/
def asBoolOpt : Option Json → Option (Option Bool)
  | none => some none
  | some .null => some none
  | some (.bool b) => some (some b)
  | some _ => none

/-- Deserialization of the backend reply document into `LambdaResponse`:
required keys `statusCode` (u16), `headers` (string map), `body` (string);
optional key `isBase64Encoded` (bool); unknown keys ignored. -/
def deserLambdaResponse : Json → Option LambdaResponse
  | .obj fs =>
      match jGet fs "statusCode", jGet fs "headers", jGet fs "body" with
      | some jsc, some jh, some jb =>
          match asU16 jsc, asHeaderMap jh, asStr jb,
                asBoolOpt (jGet fs "isBase64Encoded") with
          | some sc, some hs, some b, some ib => some ⟨sc, hs, b, ib⟩
          | _, _, _, _ => none
      | _, _, _ => none
  | _ => none

/-! ## ResponseReconstructor (lines 26-34 and 136-147 of src/main.rs) -/

/-- `LambdaResponse::body()`: base64-decode the body when the flag is set
(`none` models the `.unwrap()` panic on invalid base64), otherwise the
UTF-8 bytes of the body string. -/
def LambdaResponse.decodedBody (lr : LambdaResponse) : Option (List Nat) :=
  if lr.is_base64_encoded.getD false then b64Decode lr.body.data
  else some (utf8Encode lr.body)

/-- The header-insertion loop over `lambda_response.headers`: each name
must parse as a `HeaderName` (validated, lowercased) and each value as a
`HeaderValue`, `HeaderMap::insert` replacing same-name entries; any
failure is an `.unwrap()` panic. -/
def applyHeaders (sc : Nat) (bodyBytes : List Nat) :
    List (String × String) → List (String × String) → Outcome
  | [], acc => .response sc acc bodyBytes
  | (k, v) :: rest, acc =>
      if headerNameValid k ∧ headerValueValid v then
        applyHeaders sc bodyBytes rest (insertReplace acc (lowerAscii k) v)
      else .crash "invalid response header"

/-- Build the outgoing response from a parsed reply: the body argument is
evaluated first (panic on invalid base64), then `Response::builder` is
unwrapped (its status check accepts exactly 100..=999), then the headers
are inserted. -/
def buildResponse (lr : LambdaResponse) : Outcome :=
  match lr.decodedBody with
  | none => .crash "invalid base64 body"
  | some bodyBytes =>
      if lr.status_code < 100 ∨ 999 < lr.status_code then
        .crash "invalid status code"
      else applyHeaders lr.status_code bodyBytes lr.headers []

/-- The post-call phase: parse the backend body as a `LambdaResponse`
(`.unwrap()` panic when it does not deserialize) and rebuild the
response. -/
def replyPhase (j : Json) : Outcome :=
  match deserLambdaResponse j with
  | none => .crash "malformed backend reply"
  | some lr => buildResponse lr

/-! ## The handler (`handle_all`).  The second component records what was
POSTed to the backend: `none` means the backend was never contacted.
Transport-level failures and body-buffering failures of the source
(further `.unwrap()`/early-return paths) are outside the claims and are
not modelled: `backend` is the response the backend actually returned. -/

def handle_all (req : InboundRequest) (backend : BackendResp)
    (timeStr : String) (epochMs : Int) : Outcome × Option InvocationEvent :=
  match decodeHeaders req.headers with
  | none =>
      (.response 500 plainTextHeaders
        (utf8Encode "Error reading request headers."), none)
  | some hdrs =>
      if 500 ≤ backend.status ∧ backend.status ≤ 599 then
        (.response 500 plainTextHeaders
          (utf8Encode "Error calling backend."),
         some (buildEvent req hdrs timeStr epochMs))
      else
        (replyPhase backend.body, some (buildEvent req hdrs timeStr epochMs))

/-! ## Concrete inputs used by witnesses and counterexamples -/

/-- A plain request with a binary body. -/
def reqBin : InboundRequest :=
  ⟨"POST", "/upload", none, [("host", [104, 111, 115, 116])], [72, 0, 255, 10]⟩

/-- A request carrying a header value that is not valid UTF-8. -/
def reqBadHeader : InboundRequest :=
  ⟨"GET", "/", none, [("x-a", [255])], []⟩

/-- A minimal request with no headers and no body. -/
def reqPlain : InboundRequest := ⟨"GET", "/", none, [], []⟩

/-- The reply scenario of the spec: 404 with a plain-text body. -/
def reply404 : Json :=
  .obj [("statusCode", .num 404),
        ("headers", .obj [("Content-Type", .str "text/plain")]),
        ("body", .str "not found"),
        ("isBase64Encoded", .bool false)]

/-- A backend response delivering `reply404` with HTTP 200. -/
def backend404 : BackendResp := ⟨200, reply404⟩

/-- A backend response whose body is an empty JSON object (missing all
required keys). -/
def backendMalformed : BackendResp := ⟨200, .obj []⟩

/-- A backend response used where the reply content is irrelevant. -/
def backendAny : BackendResp := ⟨200, .null⟩

/-- A backend response with a server-error status. -/
def backend503 : BackendResp := ⟨503, .null⟩

/-- A parsed reply with `statusCode` 600 (outside `[100, 599]`). -/
def reply600 : LambdaResponse := ⟨600, [], "ok", some false⟩

/-- A parsed reply with an ordinary 200 status. -/
def reply200 : LambdaResponse :=
  ⟨200, [("Content-Type", "text/plain")], "ok", none⟩

/-- A parsed reply claiming base64 with a non-base64 body. -/
def replyBadBase64 : LambdaResponse := ⟨200, [], "!!!", some true⟩

/-- A parsed reply with a header name that is not a valid token. -/
def replyBadHeader : LambdaResponse :=
  ⟨200, [("bad header", "x")], "ok", none⟩

/-! ## Theorems -/

theorem sextet_inv : ∀ s < 64, charSextet (sextetChar s) = some s := by decide

theorem sextet_ne_pad : ∀ s < 64, sextetChar s ≠ '=' := by decide

/-- Encode-then-decode is the identity on byte sequences. -/
theorem b64_roundtrip :
    ∀ B : List Nat, (∀ b ∈ B, b < 256) →
      b64Decode (b64EncodeChunks B) = some B
  | [], _ => rfl
  | [b0], h => by
      have h0 : b0 < 256 := h b0 (by simp)
      have e0 := sextet_inv (b0 / 4) (by omega)
      have e1 := sextet_inv (b0 % 4 * 16) (by omega)
      simp only [b64EncodeChunks, b64Decode, b64DecPad2, e0, e1,
        eq_self_iff_true, and_self, if_true]
      rw [if_pos (by omega)]
      simp only [Option.some.injEq, List.cons.injEq, and_true]
      omega
  | [b0, b1], h => by
      have h0 : b0 < 256 := h b0 (by simp)
      have h1 : b1 < 256 := h b1 (by simp)
      have e0 := sextet_inv (b0 / 4) (by omega)
      have e1 := sextet_inv (b0 % 4 * 16 + b1 / 16) (by omega)
      have e2 := sextet_inv (b1 % 16 * 4) (by omega)
      have n2 := sextet_ne_pad (b1 % 16 * 4) (by omega)
      simp only [b64EncodeChunks, b64Decode, b64DecPad1, e0, e1, e2, n2,
        eq_self_iff_true, and_self, if_true, if_false, ite_false, ite_true]
      rw [if_pos (by omega)]
      simp only [Option.some.injEq, List.cons.injEq, and_true]
      omega
  | b0 :: b1 :: b2 :: rest, h => by
      have h0 : b0 < 256 := h b0 (by simp)
      have h1 : b1 < 256 := h b1 (by simp)
      have h2 : b2 < 256 := h b2 (by simp)
      have ih := b64_roundtrip rest (fun b hb => h b (by simp [hb]))
      have e0 := sextet_inv (b0 / 4) (by omega)
      have e1 := sextet_inv (b0 % 4 * 16 + b1 / 16) (by omega)
      have e2 := sextet_inv (b1 % 16 * 4 + b2 / 64) (by omega)
      have e3 := sextet_inv (b2 % 64) (by omega)
      have n2 := sextet_ne_pad (b1 % 16 * 4 + b2 / 64) (by omega)
      have n3 := sextet_ne_pad (b2 % 64) (by omega)
      simp only [b64EncodeChunks, b64Decode]
      rw [if_neg n2, if_neg n3]
      simp only [e0, e1, e2, e3, ih]
      simp only [Option.some.injEq, List.cons.injEq, and_true]
      omega

/-- A header set containing an undecodable value fails wholesale. -/
theorem decodeHeaders_eq_none :
    ∀ hs : List (String × List Nat), (∃ p ∈ hs, utf8Dec p.2 = none) →
      decodeHeaders hs = none
  | [], h => by
      obtain ⟨p, hp, _⟩ := h
      exact absurd hp (List.not_mem_nil p)
  | (k, v) :: rest, h => by
      cases hv : utf8Dec v with
      | none => simp [decodeHeaders, hv]
      | some s =>
          have hrest : ∃ p ∈ rest, utf8Dec p.2 = none := by
            obtain ⟨p, hp, hpn⟩ := h
            rcases List.mem_cons.mp hp with he | hm
            · subst he
              simp only at hpn
              rw [hv] at hpn
              exact absurd hpn (Option.some_ne_none s)
            · exact ⟨p, hm, hpn⟩
          simp [decodeHeaders, hv, decodeHeaders_eq_none rest hrest]

/-- When every reply header is valid, the insertion loop completes and
returns a response with the given status and body. -/
theorem applyHeaders_ok (sc : Nat) (bb : List Nat) :
    ∀ (hs acc : List (String × String)),
      (∀ p ∈ hs, headerNameValid p.1 ∧ headerValueValid p.2) →
      ∃ m, applyHeaders sc bb hs acc = Outcome.response sc m bb
  | [], acc, _ => ⟨acc, rfl⟩
  | (k, v) :: rest, acc, h => by
      have hkv := h (k, v) (by simp)
      obtain ⟨m, hm⟩ := applyHeaders_ok sc bb rest
        (insertReplace acc (lowerAscii k) v) (fun p hp => h p (by simp [hp]))
      refine ⟨m, ?_⟩
      simp only [applyHeaders]
      rw [if_pos hkv]
      exact hm

/-- Claim C1: for every inbound request body (including empty and binary
bodies), base64-decoding the `body` field of the invocation event the
builder produces yields exactly that body: encode-then-decode is the
identity. -/
theorem claim1_body_round_trip (req : InboundRequest)
    (hdrs : List (String × String)) (t : String) (e : Int)
    (h : ∀ b ∈ req.body, b < 256) :
    b64Decode (buildEvent req hdrs t e).body.data = some req.body :=
  b64_roundtrip req.body h

/-- Witness for C1 at a concrete binary body. -/
theorem claim1_witness :
    (∀ b ∈ reqBin.body, b < 256) ∧
    b64Decode (buildEvent reqBin [("host", "host")] "t" 0).body.data =
      some reqBin.body :=
  ⟨by decide, claim1_body_round_trip reqBin [("host", "host")] "t" 0 (by decide)⟩

/-- Claim C2 counterexample: `statusCode` 600 lies outside `[100, 599]`,
yet response construction does not fail — it succeeds and the outgoing
status is 600 (`http::StatusCode` accepts the whole range 100..=999). -/
theorem claim2_counterexample :
    599 < reply600.status_code ∧
    buildResponse reply600 = Outcome.response 600 [] (utf8Encode "ok") :=
  ⟨by decide, by decide⟩

/-- Claim C2 (amended): for a parsed reply whose body decodes and whose
headers are valid, a `statusCode` in `[100, 999]` yields an outgoing
response with exactly that status, while a `statusCode` outside
`[100, 999]` makes response construction panic (the request aborts with a
crash, not a clean `InvalidStatusCode` error response). -/
theorem claim2_amended (lr : LambdaResponse)
    (hb : lr.decodedBody ≠ none)
    (hh : ∀ p ∈ lr.headers, headerNameValid p.1 ∧ headerValueValid p.2) :
    (100 ≤ lr.status_code ∧ lr.status_code ≤ 999 →
      ∃ m bb, lr.decodedBody = some bb ∧
        buildResponse lr = Outcome.response lr.status_code m bb) ∧
    (lr.status_code < 100 ∨ 999 < lr.status_code →
      buildResponse lr = Outcome.crash "invalid status code") := by
  cases hd : lr.decodedBody with
  | none => exact absurd hd hb
  | some bb =>
      constructor
      · intro hsc
        obtain ⟨m, hm⟩ := applyHeaders_ok lr.status_code bb lr.headers [] hh
        refine ⟨m, bb, rfl, ?_⟩
        simp only [buildResponse, hd]
        rw [if_neg (by omega)]
        exact hm
      · intro hsc
        simp only [buildResponse, hd]
        rw [if_pos hsc]

/-- Witness for the amended C2 at a concrete 200 reply. -/
theorem claim2_witness :
    reply200.decodedBody ≠ none ∧
    (∀ p ∈ reply200.headers, headerNameValid p.1 ∧ headerValueValid p.2) ∧
    (100 ≤ reply200.status_code ∧ reply200.status_code ≤ 999 →
      ∃ m bb, reply200.decodedBody = some bb ∧
        buildResponse reply200 = Outcome.response reply200.status_code m bb) :=
  ⟨by decide, by decide, (claim2_amended reply200 (by decide) (by decide)).1⟩

/-- Claim C3, code behaviour at the failing input: a reply with
`isBase64Encoded` true and a body that is not valid base64 makes response
construction crash (panic on `.unwrap()`); no 500-class error response is
produced for the caller. -/
theorem claim3_crash_on_invalid_base64 :
    buildResponse replyBadBase64 = Outcome.crash "invalid base64 body" := by
  decide

/-- Claim C4: an inbound request with any header value that is not valid
UTF-8 is answered directly with a 500 status and a human-readable message,
and the backend is never contacted (no event is POSTed). -/
theorem claim4_header_rejection (req : InboundRequest) (backend : BackendResp)
    (t : String) (e : Int) (h : ∃ p ∈ req.headers, utf8Dec p.2 = none) :
    handle_all req backend t e =
      (Outcome.response 500 plainTextHeaders
        (utf8Encode "Error reading request headers."), none) := by
  simp only [handle_all, decodeHeaders_eq_none req.headers h]

/-- Witness for C4 at a concrete request with a non-UTF-8 header byte. -/
theorem claim4_witness :
    (∃ p ∈ reqBadHeader.headers, utf8Dec p.2 = none) ∧
    handle_all reqBadHeader backendAny "t" 0 =
      (Outcome.response 500 plainTextHeaders
        (utf8Encode "Error reading request headers."), none) :=
  ⟨⟨("x-a", [255]), by decide, by decide⟩,
   claim4_header_rejection reqBadHeader backendAny "t" 0
     ⟨("x-a", [255]), by decide, by decide⟩⟩

/-- Claim C5: a backend HTTP status in 500..=599 yields a 500 response
with the fixed generic message, whatever the backend's body holds — no
byte of the backend's reply body reaches the caller-facing response. -/
theorem claim5_backend_5xx (req : InboundRequest) (backend : BackendResp)
    (hdrs : List (String × String)) (t : String) (e : Int)
    (hh : decodeHeaders req.headers = some hdrs)
    (h1 : 500 ≤ backend.status) (h2 : backend.status ≤ 599) :
    handle_all req backend t e =
      (Outcome.response 500 plainTextHeaders
        (utf8Encode "Error calling backend."),
       some (buildEvent req hdrs t e)) := by
  simp only [handle_all, hh]
  rw [if_pos ⟨h1, h2⟩]

/-- Witness for C5 at a backend returning 503. -/
theorem claim5_witness :
    decodeHeaders reqPlain.headers = some [] ∧
    handle_all reqPlain backend503 "t" 0 =
      (Outcome.response 500 plainTextHeaders
        (utf8Encode "Error calling backend."),
       some (buildEvent reqPlain [] "t" 0)) :=
  ⟨rfl, claim5_backend_5xx reqPlain backend503 [] "t" 0 rfl (by decide) (by decide)⟩

/-- Claim C6, code behaviour at the failing input: a backend body that
does not deserialize as a `LambdaResponse` (here an empty JSON object,
missing every required key) makes the handler crash (panic on
`.unwrap()`); no 500-class error response is produced. -/
theorem claim6_crash_on_malformed_reply :
    handle_all reqPlain backendMalformed "t" 0 =
      (Outcome.crash "malformed backend reply",
       some (buildEvent reqPlain [] "t" 0)) := by
  rfl

/-- Claim C7, code behaviour at the failing input: a reply header whose
name is not a valid HTTP token makes response construction crash (panic
on `.unwrap()`); no 500-class error response is produced (though indeed
no partially-headed response is sent either). -/
theorem claim7_crash_on_invalid_header :
    buildResponse replyBadHeader = Outcome.crash "invalid response header" := by
  decide

/-- Claim C8: for every inbound query string Q, the event's
`queryStringParameters` is exactly the form-urlencoded decoding of Q
(percent-decoding and plus-as-space) collected with last-occurrence-wins,
while `rawQueryString` carries Q verbatim (empty when the request has no
query); concretely, `x=1&x=2` decodes to the single pair `x ↦ 2`. -/
theorem claim8_query_decoding :
    (∀ (req : InboundRequest) (hdrs : List (String × String))
        (t : String) (e : Int),
      (buildEvent req hdrs t e).rawQueryString = req.query.getD "" ∧
      (buildEvent req hdrs t e).queryStringParameters =
        collectLastWins (formUrlDecode (utf8Encode (req.query.getD "")))) ∧
    collectLastWins (formUrlDecode (utf8Encode "x=1&x=2")) =
      [(utf8Encode "x", utf8Encode "2")] :=
  ⟨fun _ _ _ _ => ⟨rfl, rfl⟩, by decide⟩

/-- Claim C9: every emitted invocation event has `version` "2.0",
`routeKey`, `requestContext.routeKey` and `requestContext.stage`
"$default", `isBase64Encoded` true, and a `body` that is the base64
encoding of the request body — the flag and the encoding are always
paired. -/
theorem claim9_event_invariants (req : InboundRequest)
    (hdrs : List (String × String)) (t : String) (e : Int) :
    (buildEvent req hdrs t e).version = "2.0" ∧
    (buildEvent req hdrs t e).routeKey = "$default" ∧
    (buildEvent req hdrs t e).requestContext.routeKey = "$default" ∧
    (buildEvent req hdrs t e).requestContext.stage = "$default" ∧
    (buildEvent req hdrs t e).isBase64Encoded = true ∧
    (buildEvent req hdrs t e).body = String.mk (b64EncodeChunks req.body) :=
  ⟨rfl, rfl, rfl, rfl, rfl, rfl⟩

/-- Claim C10: a backend HTTP status that is not a server error (100..=499)
is treated as success — the handler goes on to parse the backend body as a
reply document and build the caller-facing response from it. -/
theorem claim10_non_server_error_parsed (req : InboundRequest)
    (backend : BackendResp) (hdrs : List (String × String))
    (t : String) (e : Int)
    (hh : decodeHeaders req.headers = some hdrs)
    (h1 : 100 ≤ backend.status) (h2 : backend.status ≤ 499) :
    handle_all req backend t e =
      (replyPhase backend.body, some (buildEvent req hdrs t e)) := by
  simp only [handle_all, hh]
  rw [if_neg (by omega)]

/-- Witness for C10: the spec's 404 scenario — backend-level HTTP 200
carrying a 404 reply document is translated into an HTTP 404 with the
reply's header and body. -/
theorem claim10_witness :
    handle_all reqPlain backend404 "t" 0 =
      (replyPhase backend404.body, some (buildEvent reqPlain [] "t" 0)) ∧
    replyPhase backend404.body =
      Outcome.response 404 [("content-type", "text/plain")]
        (utf8Encode "not found") :=
  ⟨claim10_non_server_error_parsed reqPlain backend404 [] "t" 0 rfl
     (by decide) (by decide),
   by rfl⟩
